import Mathlib

/-!
Verification of the study-session tracker core (models.py, db.py, api.py).

Shallow embedding conventions:
* timestamps are natural numbers, microseconds since 1970-01-01T00:00:00
  (Python naive `datetime` values; the repository only ever handles
  post-epoch wall-clock times);
* `int((b - a).total_seconds())` becomes `(b - a) / 1000000` on `Nat`;
* Python `None` becomes `Option.none`; fallible results are `Option`;
* CSV rows keep every field as a `String`, as Python's `csv.DictReader`
  and `csv.DictWriter` do;
* `datetime.fromisoformat` / `datetime.isoformat` are embedded as an
  executable parser/printer for the naive (timezone-free) ISO-8601 forms
  the application produces and consumes:
  `YYYY-MM-DD[sep HH[:MM[:SS[.fff | .ffffff]]]]`.
-/

/-! ## Digits, zero-padded fields, and the civil calendar -/

def digToNat (c : Char) : Nat := c.toNat - 48

def digitChar (n : Nat) : Char := Char.ofNat (48 + n)

def pad2 (n : Nat) : List Char := [digitChar (n / 10), digitChar (n % 10)]

def pad4 (n : Nat) : List Char :=
  [digitChar (n / 1000), digitChar (n / 100 % 10), digitChar (n / 10 % 10), digitChar (n % 10)]

def pad6 (n : Nat) : List Char :=
  [digitChar (n / 100000), digitChar (n / 10000 % 10), digitChar (n / 1000 % 10),
   digitChar (n / 100 % 10), digitChar (n / 10 % 10), digitChar (n % 10)]

def isLeapYear (y : Nat) : Bool := (y % 4 == 0 && y % 100 != 0) || y % 400 == 0

def daysInMonth (y m : Nat) : Nat :=
  if m == 2 then (if isLeapYear y then 29 else 28)
  else if m == 4 || m == 6 || m == 9 || m == 11 then 30
  else 31

/-- A Python naive `datetime` value. -/
structure DateTime where
  year : Nat
  month : Nat
  day : Nat
  hour : Nat
  minute : Nat
  second : Nat
  microsecond : Nat
deriving Repr, DecidableEq

/-- The range checks performed by the `datetime` constructor. -/
def validDT (y mo d h mi s us : Nat) : Bool :=
  1 ≤ y && y ≤ 9999 && 1 ≤ mo && mo ≤ 12 && 1 ≤ d && d ≤ daysInMonth y mo &&
  h ≤ 23 && mi ≤ 59 && s ≤ 59 && us ≤ 999999

def mkValidDT (y mo d h mi s us : Nat) : Option DateTime :=
  if validDT y mo d h mi s us then some ⟨y, mo, d, h, mi, s, us⟩ else none

/-! ## `datetime.fromisoformat` (parser) -/

def parse2 : List Char → Option (Nat × List Char)
  | c1 :: c2 :: rest =>
    if c1.isDigit && c2.isDigit then some (10 * digToNat c1 + digToNat c2, rest) else none
  | _ => none

def parse4 : List Char → Option (Nat × List Char)
  | c1 :: c2 :: c3 :: c4 :: rest =>
    if c1.isDigit && c2.isDigit && c3.isDigit && c4.isDigit then
      some (1000 * digToNat c1 + 100 * digToNat c2 + 10 * digToNat c3 + digToNat c4, rest)
    else none
  | _ => none

def expectChar (c : Char) : List Char → Option (List Char)
  | c1 :: rest => if c1 = c then some rest else none
  | _ => none

/-- The fractional-seconds tail: exactly 3 or 6 digits, consuming the rest. -/
def parseFrac : List Char → Option Nat
  | [a, b, c] =>
    if a.isDigit && b.isDigit && c.isDigit then
      some ((100 * digToNat a + 10 * digToNat b + digToNat c) * 1000)
    else none
  | [a, b, c, d, e, f] =>
    if a.isDigit && b.isDigit && c.isDigit && d.isDigit && e.isDigit && f.isDigit then
      some (100000 * digToNat a + 10000 * digToNat b + 1000 * digToNat c +
            100 * digToNat d + 10 * digToNat e + digToNat f)
    else none
  | _ => none

/-- `HH[:MM[:SS[.frac]]]`, consuming the whole input. -/
def parseTime (l : List Char) : Option (Nat × Nat × Nat × Nat) :=
  match parse2 l with
  | none => none
  | some (h, r1) =>
    match r1 with
    | [] => some (h, 0, 0, 0)
    | ':' :: r2 =>
      match parse2 r2 with
      | none => none
      | some (mi, r3) =>
        match r3 with
        | [] => some (h, mi, 0, 0)
        | ':' :: r4 =>
          match parse2 r4 with
          | none => none
          | some (s, r5) =>
            match r5 with
            | [] => some (h, mi, s, 0)
            | '.' :: r6 =>
              match parseFrac r6 with
              | none => none
              | some us => some (h, mi, s, us)
            | _ => none
        | _ => none
    | _ => none

/-- `YYYY-MM-DD`, then optionally one separator character (Python accepts any
single character there) followed by a time part. -/
def parseDT (l : List Char) : Option DateTime :=
  match parse4 l with
  | none => none
  | some (y, r1) =>
    match expectChar '-' r1 with
    | none => none
    | some r2 =>
      match parse2 r2 with
      | none => none
      | some (mo, r3) =>
        match expectChar '-' r3 with
        | none => none
        | some r4 =>
          match parse2 r4 with
          | none => none
          | some (d, r5) =>
            match (match r5 with
                   | [] => some (0, 0, 0, 0)
                   | _sep :: r6 => parseTime r6) with
            | none => none
            | some (h, mi, s, us) => mkValidDT y mo d h mi s us

/-- `datetime.fromisoformat`, on the naive subset used by this application. -/
def fromisoformat? (s : String) : Option DateTime := parseDT s.data

/-! ## `datetime.isoformat` (printer) -/

/-- `datetime.isoformat()` with the default `timespec='auto'`:
seconds always printed, microseconds printed only when nonzero. -/
def isoformatChars (d : DateTime) : List Char :=
  pad4 d.year ++ '-' ::
  (pad2 d.month ++ '-' ::
   (pad2 d.day ++ 'T' ::
    (pad2 d.hour ++ ':' ::
     (pad2 d.minute ++ ':' ::
      (pad2 d.second ++ (if d.microsecond == 0 then [] else '.' :: pad6 d.microsecond))))))

def isoformat (d : DateTime) : String := ⟨isoformatChars d⟩

/-! ## SessionAPIManager._format_ts_for_api (api.py lines 57-68) -/

/-- Zero the seconds and microseconds of a datetime:
`dt.replace(second=0, microsecond=0)`. -/
def truncToMinute (d : DateTime) : DateTime := { d with second := 0, microsecond := 0 }

/-- `_format_ts_for_api`: parse, truncate to the minute, reprint;
return the input unchanged when it does not parse. -/
def formatTsForApi (ts : String) : String :=
  match fromisoformat? ts with
  | some dt => isoformat (truncToMinute dt)
  | none => ts

/-! ## Parser/printer roundtrip lemmas -/

theorem digitChar_spec : ∀ n < 10, (digitChar n).isDigit = true ∧ digToNat (digitChar n) = n := by
  decide

theorem parse2_pad2 (n : Nat) (rest : List Char) (h : n < 100) :
    parse2 (pad2 n ++ rest) = some (n, rest) := by
  have h1 : n / 10 < 10 := Nat.div_lt_of_lt_mul (by omega)
  have h2 : n % 10 < 10 := Nat.mod_lt _ (by omega)
  obtain ⟨d1, v1⟩ := digitChar_spec _ h1
  obtain ⟨d2, v2⟩ := digitChar_spec _ h2
  simp only [pad2, List.cons_append, List.nil_append, parse2, d1, d2, Bool.and_self, if_true,
    v1, v2]
  congr 2
  omega

theorem parse4_pad4 (n : Nat) (rest : List Char) (h : n < 10000) :
    parse4 (pad4 n ++ rest) = some (n, rest) := by
  have h1 : n / 1000 < 10 := Nat.div_lt_of_lt_mul (by omega)
  have h2 : n / 100 % 10 < 10 := Nat.mod_lt _ (by omega)
  have h3 : n / 10 % 10 < 10 := Nat.mod_lt _ (by omega)
  have h4 : n % 10 < 10 := Nat.mod_lt _ (by omega)
  obtain ⟨d1, v1⟩ := digitChar_spec _ h1
  obtain ⟨d2, v2⟩ := digitChar_spec _ h2
  obtain ⟨d3, v3⟩ := digitChar_spec _ h3
  obtain ⟨d4, v4⟩ := digitChar_spec _ h4
  simp only [pad4, List.cons_append, List.nil_append, parse4, d1, d2, d3, d4, Bool.and_self,
    if_true, v1, v2, v3, v4]
  congr 2
  omega

theorem expectChar_cons (c : Char) (rest : List Char) :
    expectChar c (c :: rest) = some rest := by
  simp [expectChar]

/-- Validity extracted as a proposition on a `DateTime` value. -/
def ValidDT (d : DateTime) : Prop :=
  validDT d.year d.month d.day d.hour d.minute d.second d.microsecond = true

theorem parseDT_valid (l : List Char) (d : DateTime) (h : parseDT l = some d) : ValidDT d := by
  rw [parseDT] at h
  repeat split at h <;> try cases h
  all_goals
    rename_i hmk
    rw [mkValidDT] at h
    split at h
    · cases h
      assumption
    · cases h

theorem validDT_bounds (y mo d h mi s us : Nat) (hv : validDT y mo d h mi s us = true) :
    1 ≤ y ∧ y ≤ 9999 ∧ 1 ≤ mo ∧ mo ≤ 12 ∧ 1 ≤ d ∧ d ≤ daysInMonth y mo ∧
    h ≤ 23 ∧ mi ≤ 59 ∧ s ≤ 59 ∧ us ≤ 999999 := by
  simp only [validDT, Bool.and_eq_true, decide_eq_true_eq] at hv
  tauto

/-- Printing a valid whole-second datetime and reparsing recovers it. -/
theorem parseDT_isoformatChars (d : DateTime) (hv : ValidDT d) (hus : d.microsecond = 0) :
    parseDT (isoformatChars d) = some d := by
  obtain ⟨b1, b2, b3, b4, b5, b6, b7, b8, b9, b10⟩ :=
    validDT_bounds _ _ _ _ _ _ _ hv
  have hdm : d.day ≤ 31 := by
    have : daysInMonth d.year d.month ≤ 31 := by
      rw [daysInMonth]
      split
      · split <;> omega
      · split <;> omega
    omega
  rw [isoformatChars, hus]
  simp only [beq_self_eq_true, if_true]
  have e1 := parse4_pad4 d.year
    ('-' :: (pad2 d.month ++ '-' :: (pad2 d.day ++ 'T' :: (pad2 d.hour ++ ':' ::
      (pad2 d.minute ++ ':' :: (pad2 d.second ++ [])))))) (by omega)
  have e2 := expectChar_cons '-'
    (pad2 d.month ++ '-' :: (pad2 d.day ++ 'T' :: (pad2 d.hour ++ ':' ::
      (pad2 d.minute ++ ':' :: (pad2 d.second ++ [])))))
  have e3 := parse2_pad2 d.month
    ('-' :: (pad2 d.day ++ 'T' :: (pad2 d.hour ++ ':' ::
      (pad2 d.minute ++ ':' :: (pad2 d.second ++ []))))) (by omega)
  have e4 := expectChar_cons '-'
    (pad2 d.day ++ 'T' :: (pad2 d.hour ++ ':' :: (pad2 d.minute ++ ':' :: (pad2 d.second ++ []))))
  have e5 := parse2_pad2 d.day
    ('T' :: (pad2 d.hour ++ ':' :: (pad2 d.minute ++ ':' :: (pad2 d.second ++ []))))
    (by omega)
  have e6 := parse2_pad2 d.hour
    (':' :: (pad2 d.minute ++ ':' :: (pad2 d.second ++ []))) (by omega)
  have e7 := parse2_pad2 d.minute (':' :: (pad2 d.second ++ [])) (by omega)
  have e8 := parse2_pad2 d.second [] (by omega)
  simp only [parseDT, parseTime, e1, e2, e3, e4, e5, e6, e7, e8, mkValidDT]
  rw [if_pos]
  · congr 1
    cases d
    simp_all
  · rw [← hus]
    exact hv

/-- Core of C9: a parseable timestamp is reformatted to the same instant with
seconds and microseconds zeroed, and the output parses back to exactly that. -/
theorem formatTsForApi_truncates (ts : String) (dt : DateTime)
    (h : fromisoformat? ts = some dt) :
    formatTsForApi ts = isoformat (truncToMinute dt) ∧
    fromisoformat? (formatTsForApi ts) = some (truncToMinute dt) := by
  have hv : ValidDT dt := parseDT_valid _ _ h
  have hv2 : ValidDT (truncToMinute dt) := by
    obtain ⟨b1, b2, b3, b4, b5, b6, b7, b8, b9, b10⟩ := validDT_bounds _ _ _ _ _ _ _ hv
    simp only [ValidDT, truncToMinute, validDT, Bool.and_eq_true, decide_eq_true_eq] at *
    refine ⟨⟨⟨⟨⟨⟨⟨⟨⟨?_, ?_⟩, ?_⟩, ?_⟩, ?_⟩, ?_⟩, ?_⟩, ?_⟩, ?_⟩, ?_⟩ <;> omega
  have hfmt : formatTsForApi ts = isoformat (truncToMinute dt) := by
    rw [formatTsForApi, h]
  refine ⟨hfmt, ?_⟩
  rw [hfmt]
  show parseDT (isoformat (truncToMinute dt)).data = _
  have hdata : (isoformat (truncToMinute dt)).data = isoformatChars (truncToMinute dt) := rfl
  rw [hdata, parseDT_isoformatChars _ hv2 rfl]

/-! ## Microseconds-since-epoch to civil datetime

`datetime.now()` values are embedded as microsecond counts; converting a
count to the civil `DateTime` it denotes (for `isoformat` / `strftime`)
uses the standard days-to-civil-date algorithm of the proleptic Gregorian
calendar, the same calendar Python's `datetime` uses. -/

/-- Civil (year, month, day) of a day count since 1970-01-01. -/
def civilFromDays (z : Nat) : Nat × Nat × Nat :=
  let z := z + 719468
  let era := z / 146097
  let doe := z % 146097
  let yoe := (doe - doe / 1460 + doe / 36524 - doe / 146096) / 365
  let y := yoe + era * 400
  let doy := doe - (365 * yoe + yoe / 4 - yoe / 100)
  let mp := (5 * doy + 2) / 153
  let d := doy - (153 * mp + 2) / 5 + 1
  let m := if mp < 10 then mp + 3 else mp - 9
  (if m ≤ 2 then y + 1 else y, m, d)

def microToDateTime (n : Nat) : DateTime :=
  let days := n / 86400000000
  let rem := n % 86400000000
  let ymd := civilFromDays days
  { year := ymd.1, month := ymd.2.1, day := ymd.2.2,
    hour := rem / 3600000000, minute := rem / 60000000 % 60,
    second := rem / 1000000 % 60, microsecond := rem % 1000000 }

/-- `datetime.isoformat()` applied to an embedded timestamp. -/
def isoOfMicro (n : Nat) : String := isoformat (microToDateTime n)

/-- `datetime.now().strftime('%Y%m%d_%H%M%S')`: the session-id format. -/
def sessionIdOfMicro (n : Nat) : String :=
  let d := microToDateTime n
  ⟨pad4 d.year ++ pad2 d.month ++ pad2 d.day ++ '_' ::
   (pad2 d.hour ++ pad2 d.minute ++ pad2 d.second)⟩

/-! ## models.py: Pause (lines 7-30) -/

/-- The key type of `PauseManager.active_pauses`: `StudySession.id` is
`None` until the first `start()`, so the session-id values handed to the
manager are optional strings. -/
abbrev SKey := Option String

/-- A pause interval (models.py `Pause` dataclass). `id` is the generated
uuid prefix; generation is nondeterministic, so creation takes the id as
an explicit argument. -/
structure Pause where
  id : String
  sessionId : SKey
  reason : String
  startedAt : Nat
  endedAt : Option Nat
  durationSeconds : Nat
deriving Repr, DecidableEq

/-- `Pause.create(session_id, reason)` at time `now` with generated id `pid`. -/
def Pause.create (sessionId : SKey) (reason : String) (now : Nat) (pid : String) : Pause :=
  { id := pid, sessionId := sessionId, reason := reason,
    startedAt := now, endedAt := none, durationSeconds := 0 }

/-- `Pause.end()` at time `now`: sets `ended_at`, computes the truncated
whole-second duration, returns it with the updated pause. -/
def Pause.finish (p : Pause) (now : Nat) : Pause × Nat :=
  let d := (now - p.startedAt) / 1000000
  ({ p with endedAt := some now, durationSeconds := d }, d)

def Pause.isActive (p : Pause) : Bool := p.endedAt == none

/-! ## models.py: PauseManager (lines 33-68)

`active_pauses` is a Python dict from session id to `Pause`; it is
embedded as an association list with dict semantics (insert only when the
key is absent, `pop` removes the key's entry). -/

def lookupA : List (SKey × Pause) → SKey → Option Pause
  | [], _ => none
  | (k, v) :: rest, key => if k = key then some v else lookupA rest key

def eraseA (l : List (SKey × Pause)) (key : SKey) : List (SKey × Pause) :=
  l.filter fun kv => !(kv.1 == key)

structure PauseManager where
  activePauses : List (SKey × Pause)
  completedPauses : List Pause
deriving Repr, DecidableEq

def PauseManager.init : PauseManager := ⟨[], []⟩

/-- `start_pause`: `None` and no side effect when the id already has an
active pause; otherwise create and register. -/
def startPause (pm : PauseManager) (sessionId : SKey) (reason : String) (now : Nat)
    (pid : String) : Option Pause × PauseManager :=
  match lookupA pm.activePauses sessionId with
  | some _ => (none, pm)
  | none =>
    let p := Pause.create sessionId reason now pid
    (some p, { pm with activePauses := pm.activePauses ++ [(sessionId, p)] })

/-- `end_pause`: 0 and no change when no active pause for the id; otherwise
pop it, end it, append it to the completed list, return its duration. -/
def endPause (pm : PauseManager) (sessionId : SKey) (now : Nat) : Nat × PauseManager :=
  match lookupA pm.activePauses sessionId with
  | none => (0, pm)
  | some p =>
    let pd := p.finish now
    (pd.2, { activePauses := eraseA pm.activePauses sessionId,
             completedPauses := pm.completedPauses ++ [pd.1] })

/-- `resume_session`: alias for `end_pause`. -/
def resumeSession (pm : PauseManager) (sessionId : SKey) (now : Nat) : Nat × PauseManager :=
  endPause pm sessionId now

/-- Sum of completed durations for the id (the active pause never counts). -/
def getSessionTotalPauseTime (pm : PauseManager) (sessionId : SKey) : Nat :=
  ((pm.completedPauses.filter fun p => p.sessionId == sessionId).map
    fun p => p.durationSeconds).sum

/-- Active pause (if any) prepended to the completed pauses for the id. -/
def getSessionPauses (pm : PauseManager) (sessionId : SKey) : List Pause :=
  (match lookupA pm.activePauses sessionId with
   | some p => [p]
   | none => []) ++ pm.completedPauses.filter fun p => p.sessionId == sessionId

def getSessionPauseCount (pm : PauseManager) (sessionId : SKey) : Nat :=
  (getSessionPauses pm sessionId).length

/-! ## models.py: StudySession (lines 71-134)

`status_changed` signal emissions are UI notifications with no effect on
state and are not modelled. Each operation takes the current wall-clock
time (`datetime.now()`) as an explicit argument. -/

structure StudySession where
  id : SKey
  isRunning : Bool
  startTime : Option Nat
  endTime : Option Nat
  pauseManager : PauseManager
deriving Repr, DecidableEq

def StudySession.init : StudySession :=
  { id := none, isRunning := false, startTime := none, endTime := none,
    pauseManager := PauseManager.init }

/-- `start()`: no-op returning false when already running; otherwise derive
the id from the clock, mark running, record the start time and replace the
pause manager wholesale. (`end_time` is left as-is, exactly as in the code.) -/
def StudySession.start (s : StudySession) (now : Nat) : Bool × StudySession :=
  if s.isRunning then (false, s)
  else (true, { s with id := some (sessionIdOfMicro now), isRunning := true,
                       startTime := some now, pauseManager := PauseManager.init })

/-- `pause(reason)`: `None` when not running; otherwise delegate to
`start_pause`. -/
def StudySession.pause (s : StudySession) (reason : String) (now : Nat) (pid : String) :
    Option Pause × StudySession :=
  if !s.isRunning then (none, s)
  else
    let r := startPause s.pauseManager s.id reason now pid
    (r.1, { s with pauseManager := r.2 })

/-- `resume()`: 0 when not running; otherwise delegate to `resume_session`. -/
def StudySession.resume (s : StudySession) (now : Nat) : Nat × StudySession :=
  if !s.isRunning then (0, s)
  else
    let r := resumeSession s.pauseManager s.id now
    (r.1, { s with pauseManager := r.2 })

/-- The summary dict returned by `end()`. -/
structure Summary where
  sessionId : SKey
  totalDuration : Int
  totalPause : Int
  activeTime : Int
  pauseCount : Nat
  pauses : List Pause
deriving Repr, DecidableEq

/-- `end()`: empty result when not running. When the session id has an
active pause, the end time becomes that pause's `started_at` and the pause
is deleted from `active_pauses` without being completed; otherwise the end
time is `now`. (A running session always has `start_time` set — see
`start` — so the embedding reads it with default 0.) -/
def StudySession.finish (s : StudySession) (now : Nat) : Option Summary × StudySession :=
  if !s.isRunning then (none, s)
  else
    let ep : Nat × PauseManager :=
      match lookupA s.pauseManager.activePauses s.id with
      | some p => (p.startedAt, { s.pauseManager with
                                  activePauses := eraseA s.pauseManager.activePauses s.id })
      | none => (now, s.pauseManager)
    let endT := ep.1
    let pm1 := ep.2
    let totalDuration : Int := ((endT - s.startTime.getD 0) / 1000000 : Nat)
    let totalPause : Int := getSessionTotalPauseTime pm1 s.id
    let activeTime : Int := totalDuration - totalPause
    let pauseCount := getSessionPauseCount pm1 s.id
    (some { sessionId := s.id, totalDuration := totalDuration, totalPause := totalPause,
            activeTime := activeTime, pauseCount := pauseCount,
            pauses := getSessionPauses pm1 s.id },
     { s with endTime := some endT, pauseManager := pm1, isRunning := false })

/-! ## Operation traces over the session state machine -/

/-- One user-triggered lifecycle action, with its wall-clock time and, for
`pause`, the generated pause id. -/
inductive SOp where
  | startOp (now : Nat)
  | pauseOp (reason : String) (pid : String) (now : Nat)
  | resumeOp (now : Nat)
deriving Repr, DecidableEq

def applySOp (s : StudySession) : SOp → StudySession
  | SOp.startOp now => (s.start now).2
  | SOp.pauseOp reason pid now => (s.pause reason now pid).2
  | SOp.resumeOp now => (s.resume now).2

def runOps (s : StudySession) (ops : List SOp) : StudySession :=
  ops.foldl applySOp s

/-! ## Operation traces over a bare PauseManager -/

inductive PMOp where
  | startOp (sessionId : SKey) (reason : String) (now : Nat) (pid : String)
  | endOp (sessionId : SKey) (now : Nat)
deriving Repr, DecidableEq

def applyPMOp (pm : PauseManager) : PMOp → PauseManager
  | PMOp.startOp sid reason now pid => (startPause pm sid reason now pid).2
  | PMOp.endOp sid now => (endPause pm sid now).2

def runPMOps (pm : PauseManager) (ops : List PMOp) : PauseManager :=
  ops.foldl applyPMOp pm

/-- The number of entries `active_pauses` holds for a given session id. -/
def countActiveFor (pm : PauseManager) (sessionId : SKey) : Nat :=
  (pm.activePauses.filter fun kv => kv.1 == sessionId).length

/-! ## db.py: SessionDatabase (CSV-backed storage)

Rows are string-valued records, as `csv.DictReader`/`DictWriter` handle
them; `None` values are written as the empty string. -/

structure SessionRow where
  sessionId : String
  startedAt : String
  endedAt : String
  totalDurationSeconds : String
  activeTimeSeconds : String
  pauseCount : String
  totalPauseDurationSeconds : String
  notes : String
  location : String
  equipment : String
deriving Repr, DecidableEq

structure PauseRow where
  id : String
  sessionId : String
  reason : String
  startedAt : String
  endedAt : String
  durationSeconds : String
deriving Repr, DecidableEq

/-- The two CSV files: sessions.csv and pauses.csv. -/
structure Db where
  sessions : List SessionRow
  pauses : List PauseRow
deriving Repr, DecidableEq

/-- `fetch_unsynced_sessions`: all session rows. -/
def fetchUnsyncedSessions (db : Db) : List SessionRow := db.sessions

/-- `fetch_unsynced_pauses_for_session`: all pause rows with that id. -/
def fetchUnsyncedPausesForSession (db : Db) (sessionId : String) : List PauseRow :=
  db.pauses.filter fun p => p.sessionId == sessionId

/-- The row loop of `delete_pauses_by_ids`: keep rows whose id is not in
the set, count the others. -/
def removePausesLoop (ids : List String) : List PauseRow → List PauseRow × Nat
  | [] => ([], 0)
  | r :: rest =>
    let rd := removePausesLoop ids rest
    if ids.contains r.id then (rd.1, rd.2 + 1) else (r :: rd.1, rd.2)

/-- `delete_pauses_by_ids(pause_ids)`: no-op returning 0 on an empty id
list; otherwise rewrite pauses.csv without the named rows. -/
def deletePausesByIds (db : Db) (pauseIds : List String) : Db × Nat :=
  if pauseIds.isEmpty then (db, 0)
  else
    let rd := removePausesLoop pauseIds db.pauses
    ({ db with pauses := rd.1 }, rd.2)

/-- The row loop of `delete_session_by_session_id`. -/
def removeSessionsLoop (sessionId : String) : List SessionRow → List SessionRow × Nat
  | [] => ([], 0)
  | r :: rest =>
    let rd := removeSessionsLoop sessionId rest
    if r.sessionId == sessionId then (rd.1, rd.2 + 1) else (r :: rd.1, rd.2)

/-- `delete_session_by_session_id(session_id)`: rewrite sessions.csv without
the rows carrying that id. Only sessions.csv is touched. -/
def deleteSessionBySessionId (db : Db) (sessionId : String) : Db × Nat :=
  let rd := removeSessionsLoop sessionId db.sessions
  ({ db with sessions := rd.1 }, rd.2)

/-! ## db.py: save_session (lines 80-134) -/

/-- The summary reconstruction for an already-ended session
(save_session's fallback branch). -/
def reconstructSummary (s : StudySession) : Summary :=
  let totalDuration : Int := ((s.endTime.getD 0 - s.startTime.getD 0) / 1000000 : Nat)
  let totalPause : Int := getSessionTotalPauseTime s.pauseManager s.id
  { sessionId := s.id, totalDuration := totalDuration, totalPause := totalPause,
    activeTime := totalDuration - totalPause,
    pauseCount := getSessionPauseCount s.pauseManager s.id,
    pauses := getSessionPauses s.pauseManager s.id }

/-- The sessions.csv row appended for a summary. -/
def sessionRowOfSummary (s : StudySession) (su : Summary)
    (notes location equipment : String) : SessionRow :=
  { sessionId := match su.sessionId with | some i => i | none => "",
    startedAt := match s.startTime with | some t => isoOfMicro t | none => "",
    endedAt := match s.endTime with | some t => isoOfMicro t | none => "",
    totalDurationSeconds := toString su.totalDuration,
    activeTimeSeconds := toString su.activeTime,
    pauseCount := toString su.pauseCount,
    totalPauseDurationSeconds := toString su.totalPause,
    notes := notes, location := location, equipment := equipment }

/-- The pauses.csv row appended for one pause of the summary. -/
def pauseRowOfPause (p : Pause) : PauseRow :=
  { id := p.id,
    sessionId := match p.sessionId with | some i => i | none => "",
    reason := p.reason,
    startedAt := isoOfMicro p.startedAt,
    endedAt := match p.endedAt with | some t => isoOfMicro t | none => "",
    durationSeconds := toString p.durationSeconds }

/-- `save_session(session, notes, location, equipment)` at time `now`:
end the session (a mutation, hence the returned session); when `end()`
came back empty, reconstruct for an already-ended session or write
nothing; then append one session row and one row per summary pause. -/
def saveSession (db : Db) (s : StudySession) (notes location equipment : String)
    (now : Nat) : Db × StudySession :=
  let es := s.finish now
  match es.1 with
  | some su =>
    ({ sessions := db.sessions ++ [sessionRowOfSummary es.2 su notes location equipment],
       pauses := db.pauses ++ su.pauses.map pauseRowOfPause }, es.2)
  | none =>
    if s.startTime.isSome && s.endTime.isSome && !s.isRunning then
      let su := reconstructSummary s
      ({ sessions := db.sessions ++ [sessionRowOfSummary s su notes location equipment],
         pauses := db.pauses ++ su.pauses.map pauseRowOfPause }, s)
    else (db, s)

/-! ## api.py: SessionAPIManager.sync_unsynced (lines 70-164)

Network responses are modelled as Boolean acknowledgment oracles over the
posted payloads: `true` is a 2xx status, `false` is any other status, a
timeout or a transport error. Endpoint configuration is an optional URL
per endpoint, `none` when unconfigured. -/

structure SessionPayload where
  sessionId : String
  startedAt : Option String
  endedAt : Option String
  totalDurationSeconds : String
  pauseCount : String
  totalPauseDurationSeconds : String
  notes : String
  location : String
  equipment : String
deriving Repr, DecidableEq

structure PausePayload where
  id : String
  sessionId : String
  reason : String
  startedAt : Option String
  endedAt : Option String
  durationSeconds : String
deriving Repr, DecidableEq

/-- Python's `x or 0` on a CSV string field: the empty string (falsy) is
replaced by zero; the decimal string stands in for the int. -/
def orZero (s : String) : String := if s == "" then "0" else s

/-- The session payload of api.py lines 85-95; `started_at`/`ended_at`
become `None` when the stored field is empty, and go through
`_format_ts_for_api` otherwise. -/
def sessionPayloadOfRow (s : SessionRow) : SessionPayload :=
  { sessionId := s.sessionId,
    startedAt := if s.startedAt == "" then none else some (formatTsForApi s.startedAt),
    endedAt := if s.endedAt == "" then none else some (formatTsForApi s.endedAt),
    totalDurationSeconds := orZero s.totalDurationSeconds,
    pauseCount := orZero s.pauseCount,
    totalPauseDurationSeconds := orZero s.totalPauseDurationSeconds,
    notes := s.notes, location := s.location, equipment := s.equipment }

/-- The pause payload of api.py lines 97-107. -/
def pausePayloadOfRow (p : PauseRow) : PausePayload :=
  { id := p.id, sessionId := p.sessionId, reason := p.reason,
    startedAt := if p.startedAt == "" then none else some (formatTsForApi p.startedAt),
    endedAt := if p.endedAt == "" then none else some (formatTsForApi p.endedAt),
    durationSeconds := orZero p.durationSeconds }

structure SyncConfig where
  sessionLogEndpoint : Option String
  sessionPausesEndpoint : Option String
deriving Repr, DecidableEq

inductive SyncOutcome where
  | nothingToSync
  | skipped
  | completed
  | partiallyCompleted
deriving Repr, DecidableEq

structure PreparedItem where
  session : SessionPayload
  pauses : List PausePayload
deriving Repr, DecidableEq

/-- The prepare phase: one item per session row, with that session's pause
payloads, all read from storage before any network call. -/
def prepareItems (db : Db) : List PreparedItem :=
  db.sessions.map fun s =>
    { session := sessionPayloadOfRow s,
      pauses := (fetchUnsyncedPausesForSession db s.sessionId).map pausePayloadOfRow }

/-- `sent_pause_ids` for one prepared item: the ids of the pause payloads
the pauses endpoint acknowledged. -/
def ackedIds (ackPause : PausePayload → Bool) (item : PreparedItem) : List String :=
  (item.pauses.filter ackPause).map fun p => p.id

/-- The storage mutation one loop iteration performs (api.py lines
151-158): delete the acknowledged pause rows (skipping the call when none
were acknowledged, as the code does), then delete the session row exactly
when every pause payload of the item was acknowledged. -/
def syncStep (ackPause : PausePayload → Bool) (item : PreparedItem) (db : Db) : Db :=
  let sentIds := ackedIds ackPause item
  let db1 := if sentIds.isEmpty then db else (deletePausesByIds db sentIds).1
  if sentIds.length == item.pauses.length
  then (deleteSessionBySessionId db1 item.session.sessionId).1 else db1

/-- The network loop of sync_unsynced (api.py lines 127-158): post the
session payload, post every pause payload (`all_ok` drops to false on any
failed POST of either kind), then apply the storage mutation. -/
def syncLoop (ackSession : SessionPayload → Bool) (ackPause : PausePayload → Bool) :
    List PreparedItem → Db → Bool → Db × Bool
  | [], db, allOk => (db, allOk)
  | item :: rest, db, allOk =>
    syncLoop ackSession ackPause rest (syncStep ackPause item db)
      ((allOk && ackSession item.session) && item.pauses.all ackPause)

/-- `sync_unsynced`: nothing-to-sync short-circuit, prepare phase,
configuration check, then the network loop. Returns the reported outcome,
the boolean result, and the storage state after the call. -/
def syncUnsynced (cfg : SyncConfig) (ackSession : SessionPayload → Bool)
    (ackPause : PausePayload → Bool) (db : Db) : SyncOutcome × Bool × Db :=
  if (fetchUnsyncedSessions db).isEmpty then (SyncOutcome.nothingToSync, true, db)
  else
    let prep := prepareItems db
    if cfg.sessionLogEndpoint.isSome && cfg.sessionPausesEndpoint.isSome then
      let r := syncLoop ackSession ackPause prep db true
      (if r.2 then SyncOutcome.completed else SyncOutcome.partiallyCompleted, r.2, r.1)
    else (SyncOutcome.skipped, false, db)

/-! ## Association-list (dict) lemmas -/

theorem lookupA_eq_none_iff (l : List (SKey × Pause)) (k : SKey) :
    lookupA l k = none ↔ k ∉ l.map Prod.fst := by
  induction l with
  | nil => simp [lookupA]
  | cons kv rest ih =>
    obtain ⟨a, b⟩ := kv
    rw [lookupA]
    split
    · simp_all
    · simp_all [eq_comm]

theorem lookupA_eraseA_self (l : List (SKey × Pause)) (k : SKey) :
    lookupA (eraseA l k) k = none := by
  induction l with
  | nil => rfl
  | cons kv rest ih =>
    obtain ⟨a, b⟩ := kv
    by_cases h : a = k
    · simpa [eraseA, List.filter_cons, h] using ih
    · simpa [eraseA, List.filter_cons, h, lookupA] using ih

/-- The keys currently registered in `active_pauses`. -/
def activeKeys (pm : PauseManager) : List SKey := pm.activePauses.map Prod.fst

theorem countActiveFor_eq_countP (pm : PauseManager) (sid : SKey) :
    countActiveFor pm sid = (activeKeys pm).countP fun k => k == sid := by
  rw [countActiveFor, activeKeys, List.countP_map, ← List.countP_eq_length_filter]
  rfl

theorem nodup_countP_beq_le_one (l : List SKey) (hnd : l.Nodup) (sid : SKey) :
    (l.countP fun k => k == sid) ≤ 1 := by
  induction l with
  | nil => simp
  | cons a t ih =>
    rcases List.nodup_cons.mp hnd with ⟨ha, ht⟩
    rw [List.countP_cons]
    by_cases h : a = sid
    · subst h
      have hz : (t.countP fun k => k == a) = 0 := by
        rw [List.countP_eq_zero]
        intro x hx hb
        rw [beq_iff_eq] at hb
        subst hb
        exact ha hx
      simp [hz]
    · have hb : (a == sid) = false := by simp [h]
      simpa [hb] using ih ht

theorem nodup_activeKeys_applyPMOp (pm : PauseManager) (op : PMOp)
    (h : (activeKeys pm).Nodup) : (activeKeys (applyPMOp pm op)).Nodup := by
  cases op with
  | startOp sid reason now pid =>
    rw [applyPMOp, startPause]
    cases hl : lookupA pm.activePauses sid with
    | some p => exact h
    | none =>
      have hmem : sid ∉ pm.activePauses.map Prod.fst := (lookupA_eq_none_iff _ _).mp hl
      simp only [activeKeys, List.map_append, List.map_cons, List.map_nil]
      simp only [List.nodup_append, List.nodup_cons, List.nodup_nil]
      refine ⟨h, by simp, ?_⟩
      intro a ha hb
      simp only [List.mem_cons, List.not_mem_nil, or_false] at hb
      subst hb
      exact hmem ha
  | endOp sid now =>
    rw [applyPMOp, endPause]
    cases hl : lookupA pm.activePauses sid with
    | none => exact h
    | some p =>
      have hs : List.Sublist (eraseA pm.activePauses sid) pm.activePauses :=
        List.filter_sublist _
      exact h.sublist (hs.map Prod.fst)

theorem nodup_activeKeys_runPMOps (ops : List PMOp) :
    ∀ pm, (activeKeys pm).Nodup → (activeKeys (runPMOps pm ops)).Nodup := by
  induction ops with
  | nil => intro pm h; exact h
  | cons op rest ih =>
    intro pm h
    exact ih _ (nodup_activeKeys_applyPMOp pm op h)

/-- C6: `start_pause` on a session id that already has an active pause
returns `None` with no side effect, and along every operation sequence the
number of active pauses registered for a given session id never exceeds 1. -/
theorem startPause_at_most_one_active :
    (∀ (pm : PauseManager) (sid : SKey) (reason : String) (now : Nat) (pid : String)
       (p : Pause), lookupA pm.activePauses sid = some p →
       startPause pm sid reason now pid = (none, pm)) ∧
    (∀ (ops : List PMOp) (sid : SKey),
       countActiveFor (runPMOps PauseManager.init ops) sid ≤ 1) := by
  constructor
  · intro pm sid reason now pid p h
    rw [startPause, h]
  · intro ops sid
    have hnd : (activeKeys (runPMOps PauseManager.init ops)).Nodup :=
      nodup_activeKeys_runPMOps ops PauseManager.init (by simp [PauseManager.init, activeKeys])
    rw [countActiveFor_eq_countP]
    exact nodup_countP_beq_le_one _ hnd sid

/-- C6 witness: a second `start_pause` for the same id returns `None` and
changes nothing, and the count stays at 1 on a concrete two-start trace. -/
theorem startPause_at_most_one_active_witness :
    startPause (runPMOps PauseManager.init [PMOp.startOp (some "s") "r1" 5 "p1"])
      (some "s") "r2" 9 "p2"
      = (none, runPMOps PauseManager.init [PMOp.startOp (some "s") "r1" 5 "p1"]) ∧
    countActiveFor
      (runPMOps PauseManager.init
        [PMOp.startOp (some "s") "r1" 5 "p1", PMOp.startOp (some "s") "r2" 9 "p2"])
      (some "s") ≤ 1 := by
  constructor
  · exact startPause_at_most_one_active.1 _ (some "s") "r2" 9 "p2"
      (Pause.create (some "s") "r1" 5 "p1") (by decide)
  · exact startPause_at_most_one_active.2
      [PMOp.startOp (some "s") "r1" 5 "p1", PMOp.startOp (some "s") "r2" 9 "p2"] (some "s")

/-- C7: `end_pause` (and its alias `resume_session`) on a session id with
no active pause returns 0 and leaves the manager completely unchanged. -/
theorem endPause_no_active_noop (pm : PauseManager) (sid : SKey) (now : Nat)
    (h : lookupA pm.activePauses sid = none) :
    endPause pm sid now = (0, pm) ∧ resumeSession pm sid now = (0, pm) := by
  rw [resumeSession, endPause, h]
  exact ⟨rfl, rfl⟩

/-- C7 witness: after a pause has started and ended, a second
`end_pause`/`resume_session` call is a no-op returning 0. -/
theorem endPause_no_active_noop_witness :
    endPause (runPMOps PauseManager.init
        [PMOp.startOp (some "s") "r" 5 "p1", PMOp.endOp (some "s") 2000005])
      (some "s") 3000005
      = (0, runPMOps PauseManager.init
          [PMOp.startOp (some "s") "r" 5 "p1", PMOp.endOp (some "s") 2000005]) ∧
    resumeSession (runPMOps PauseManager.init
        [PMOp.startOp (some "s") "r" 5 "p1", PMOp.endOp (some "s") 2000005])
      (some "s") 3000005
      = (0, runPMOps PauseManager.init
          [PMOp.startOp (some "s") "r" 5 "p1", PMOp.endOp (some "s") 2000005]) :=
  endPause_no_active_noop _ (some "s") 3000005 (by decide)

/-- C10: a concrete reachable state in which `resume()` closes a pause that
started within the same whole second: the return value is 0 even though
the pause is popped from `active_pauses` and appended to
`completed_pauses` with `duration_seconds = 0`, so a caller cannot tell
this from the no-active-pause no-op, which also returns 0. -/
theorem resume_zero_length_pause_returns_zero :
    ((runOps StudySession.init
        [SOp.startOp 0, SOp.pauseOp "r" "p9" 400000]).resume 900000).1 = 0 ∧
    ((runOps StudySession.init
        [SOp.startOp 0, SOp.pauseOp "r" "p9" 400000]).resume 900000).2.pauseManager.activePauses
      = [] ∧
    ((runOps StudySession.init
        [SOp.startOp 0, SOp.pauseOp "r" "p9" 400000]).resume 900000).2.pauseManager.completedPauses
      = [{ id := "p9", sessionId := some "19700101_000000", reason := "r",
           startedAt := 400000, endedAt := some 900000, durationSeconds := 0 }] ∧
    (((runOps StudySession.init
        [SOp.startOp 0, SOp.pauseOp "r" "p9" 400000]).resume 900000).2.resume 1500000).1 = 0 := by
  refine ⟨?_, ?_, ?_, ?_⟩ <;> decide

/-- C5: for every sequence of start/pause/resume operations followed by a
final `end()`, the returned summary satisfies
`active_time + total_pause = total_duration` exactly, where
`total_duration` is the truncated whole-second difference between the
recorded end time and the session's start time. -/
theorem end_summary_balance (ops : List SOp) (now : Nat) (su : Summary) (s2 : StudySession)
    (h : (runOps StudySession.init ops).finish now = (some su, s2)) :
    su.activeTime + su.totalPause = su.totalDuration ∧
    su.totalDuration =
      ((s2.endTime.getD 0 - (runOps StudySession.init ops).startTime.getD 0) / 1000000 : Nat) := by
  rw [StudySession.finish] at h
  split at h
  · simp at h
  · rw [Prod.mk.injEq] at h
    obtain ⟨h1, h2⟩ := h
    rw [Option.some.inj h1.symm] at *
    constructor
    · simp only []
      omega
    · rw [← h2]
      simp only [Option.getD_some]

/-- C5 witness: the spec's worked example, scaled to microseconds — start,
a 3-minute pause taken 5 minutes in, and an end at 20 minutes give
`1020 + 180 = 1200`. -/
theorem end_summary_balance_witness :
    ((runOps StudySession.init
        [SOp.startOp 0, SOp.pauseOp "coffee" "p1" 300000000,
         SOp.resumeOp 480000000]).finish 1200000000).1.elim True
      (fun su => su.activeTime + su.totalPause = su.totalDuration) := by
  have h := end_summary_balance
    [SOp.startOp 0, SOp.pauseOp "coffee" "p1" 300000000, SOp.resumeOp 480000000]
    1200000000
  cases he : (runOps StudySession.init
      [SOp.startOp 0, SOp.pauseOp "coffee" "p1" 300000000,
       SOp.resumeOp 480000000]).finish 1200000000 with
  | mk fst snd =>
    cases fst with
    | none => exact trivial
    | some su => exact (h su snd he).1

/-- C2: ending while the session id has an active pause sets `end_time` to
that pause's `started_at`, drops the pause from `active_pauses` without
completing it, excludes it from the summary's pause list and count, and
charges it to neither pause time (summed over completed pauses only) nor
active time (measured up to the pause's start). The two closedness
hypotheses say the state is a reachable one: the active pause is still
open and every completed pause has ended. -/
theorem end_while_paused (s : StudySession) (p : Pause) (now : Nat)
    (hrun : s.isRunning = true)
    (hact : lookupA s.pauseManager.activePauses s.id = some p)
    (hopen : p.endedAt = none)
    (hclosed : ∀ q ∈ s.pauseManager.completedPauses, q.endedAt ≠ none) :
    (s.finish now).2.endTime = some p.startedAt ∧
    (s.finish now).2.pauseManager.completedPauses = s.pauseManager.completedPauses ∧
    lookupA (s.finish now).2.pauseManager.activePauses s.id = none ∧
    ∀ su, (s.finish now).1 = some su →
      su.pauses = s.pauseManager.completedPauses.filter (fun q => q.sessionId == s.id) ∧
      p ∉ su.pauses ∧
      su.pauseCount =
        (s.pauseManager.completedPauses.filter (fun q => q.sessionId == s.id)).length ∧
      su.totalPause = (getSessionTotalPauseTime s.pauseManager s.id : Int) ∧
      su.totalDuration = ((p.startedAt - s.startTime.getD 0) / 1000000 : Nat) := by
  rw [StudySession.finish]
  rw [hrun]
  simp only [Bool.not_true, Bool.false_eq_true, if_false, hact]
  refine ⟨trivial, trivial, lookupA_eraseA_self _ _, ?_⟩
  intro su hsu
  rw [Option.some.inj hsu.symm]
  have hpauses :
      getSessionPauses
        { s.pauseManager with activePauses := eraseA s.pauseManager.activePauses s.id } s.id
      = s.pauseManager.completedPauses.filter (fun q => q.sessionId == s.id) := by
    rw [getSessionPauses, lookupA_eraseA_self]
    rfl
  refine ⟨hpauses, ?_, ?_, ?_, rfl⟩
  · rw [hpauses]
    intro hmem
    exact hclosed p (List.mem_of_mem_filter hmem) hopen
  · rw [getSessionPauseCount, hpauses]
  · rw [getSessionTotalPauseTime, getSessionTotalPauseTime]

/-- C2 witness: a concrete running session with one open pause and one
completed pause, ended mid-pause. -/
theorem end_while_paused_witness :
    (((StudySession.mk (some "x") true (some 1000000) none
        (PauseManager.mk
          [(some "x", Pause.mk "p2" (some "x") "tea" 9000000 none 0)]
          [Pause.mk "p1" (some "x") "coffee" 3000000 (some 5000000) 2])).finish
        12000000).2.endTime = some 9000000) ∧
    (((StudySession.mk (some "x") true (some 1000000) none
        (PauseManager.mk
          [(some "x", Pause.mk "p2" (some "x") "tea" 9000000 none 0)]
          [Pause.mk "p1" (some "x") "coffee" 3000000 (some 5000000) 2])).finish
        12000000).2.pauseManager.completedPauses
      = [Pause.mk "p1" (some "x") "coffee" 3000000 (some 5000000) 2]) := by
  have h := end_while_paused
    (StudySession.mk (some "x") true (some 1000000) none
      (PauseManager.mk
        [(some "x", Pause.mk "p2" (some "x") "tea" 9000000 none 0)]
        [Pause.mk "p1" (some "x") "coffee" 3000000 (some 5000000) 2]))
    (Pause.mk "p2" (some "x") "tea" 9000000 none 0) 12000000
    rfl (by decide) rfl (by decide)
  exact ⟨h.1, h.2.1⟩

/-! ## Deletion characterization lemmas -/

theorem removeSessionsLoop_spec (sid : String) (l : List SessionRow) :
    removeSessionsLoop sid l
      = (l.filter (fun r => !(r.sessionId == sid)),
         (l.filter (fun r => r.sessionId == sid)).length) := by
  induction l with
  | nil => rfl
  | cons r rest ih =>
    rw [removeSessionsLoop, ih, List.filter_cons, List.filter_cons]
    by_cases h : r.sessionId = sid
    · simp [h]
    · simp [h]

theorem removePausesLoop_spec (ids : List String) (l : List PauseRow) :
    removePausesLoop ids l
      = (l.filter (fun r => !(ids.contains r.id)),
         (l.filter (fun r => ids.contains r.id)).length) := by
  induction l with
  | nil => rfl
  | cons r rest ih =>
    rw [removePausesLoop, ih, List.filter_cons, List.filter_cons]
    by_cases h : r.id ∈ ids
    · simp [h]
    · simp [h]

/-- C3 counterexample: on a store holding the session row for "s1" and a
pause row for "s1", `delete_session_by_session_id("s1")` leaves the pause
row in place and returns 1, not the 2 rows the claim would require. -/
theorem deleteSession_keeps_pause_rows :
    deleteSessionBySessionId
      (Db.mk [SessionRow.mk "s1" "" "" "10" "10" "1" "0" "" "" ""]
             [PauseRow.mk "p1" "s1" "r" "" "" "0"])
      "s1"
      = (Db.mk [] [PauseRow.mk "p1" "s1" "r" "" "" "0"], 1) ∧
    (deleteSessionBySessionId
      (Db.mk [SessionRow.mk "s1" "" "" "10" "10" "1" "0" "" "" ""]
             [PauseRow.mk "p1" "s1" "r" "" "" "0"])
      "s1").1.pauses ≠ [] := by
  constructor
  · decide
  · decide

theorem deleteSessionBySessionId_eq_filter (db : Db) (sid : String) :
    deleteSessionBySessionId db sid
      = (Db.mk (db.sessions.filter fun r => !(r.sessionId == sid)) db.pauses,
         (db.sessions.filter fun r => r.sessionId == sid).length) := by
  rw [deleteSessionBySessionId, removeSessionsLoop_spec]

/-- C3 as amended: `delete_session_by_session_id(id)` removes exactly the
session rows carrying that id from the sessions store, leaves the pause
store untouched, and returns the count of session rows removed. -/
theorem deleteSession_spec (db : Db) (sid : String) :
    deleteSessionBySessionId db sid
      = (Db.mk (db.sessions.filter fun r => !(r.sessionId == sid)) db.pauses,
         (db.sessions.filter fun r => r.sessionId == sid).length) :=
  deleteSessionBySessionId_eq_filter db sid

/-- C4 counterexample: invoking `save_session` twice for the same
already-ended session appends the session row and its pause row twice —
storage rows are duplicated. -/
theorem save_twice_duplicates_rows :
    ((saveSession
        ((saveSession (Db.mk [] [])
          (StudySession.mk (some "x") false (some 5000000) (some 20000000)
            (PauseManager.mk [] [Pause.mk "p1" (some "x") "r" 5000000 (some 8000000) 3]))
          "" "" "" 99).1)
        (StudySession.mk (some "x") false (some 5000000) (some 20000000)
          (PauseManager.mk [] [Pause.mk "p1" (some "x") "r" 5000000 (some 8000000) 3]))
        "" "" "" 99).1).sessions.length = 2 ∧
    ((saveSession
        ((saveSession (Db.mk [] [])
          (StudySession.mk (some "x") false (some 5000000) (some 20000000)
            (PauseManager.mk [] [Pause.mk "p1" (some "x") "r" 5000000 (some 8000000) 3]))
          "" "" "" 99).1)
        (StudySession.mk (some "x") false (some 5000000) (some 20000000)
          (PauseManager.mk [] [Pause.mk "p1" (some "x") "r" 5000000 (some 8000000) 3]))
        "" "" "" 99).1).pauses.length = 2 := by
  constructor
  · decide
  · decide

/-- C4 as amended: `end()` on an already-ended session returns the empty
result without mutating it, and `save_session` for such a session
reconstructs the summary from the session's own fields rather than
re-ending it — but each invocation appends the session row and its pause
rows again, so a repeated invocation duplicates storage rows. -/
theorem save_already_ended (db : Db) (s : StudySession)
    (notes location equipment : String) (now t1 t2 : Nat)
    (h1 : s.isRunning = false) (h2 : s.startTime = some t1) (h3 : s.endTime = some t2) :
    s.finish now = (none, s) ∧
    saveSession db s notes location equipment now
      = (Db.mk
          (db.sessions ++
            [sessionRowOfSummary s (reconstructSummary s) notes location equipment])
          (db.pauses ++ (reconstructSummary s).pauses.map pauseRowOfPause), s) ∧
    ((saveSession (saveSession db s notes location equipment now).1
        s notes location equipment now).1).sessions
      = db.sessions ++
          [sessionRowOfSummary s (reconstructSummary s) notes location equipment,
           sessionRowOfSummary s (reconstructSummary s) notes location equipment] := by
  have hend : s.finish now = (none, s) := by
    rw [StudySession.finish, h1]
    rfl
  have hsave : ∀ db0 : Db, saveSession db0 s notes location equipment now
      = (Db.mk
          (db0.sessions ++
            [sessionRowOfSummary s (reconstructSummary s) notes location equipment])
          (db0.pauses ++ (reconstructSummary s).pauses.map pauseRowOfPause), s) := by
    intro db0
    rw [saveSession, hend]
    simp only [h1, h2, h3, Option.isSome_some, Bool.not_false, Bool.and_self, if_true]
  refine ⟨hend, hsave db, ?_⟩
  rw [hsave db, hsave _]
  simp

/-- C4 witness: the amended statement evaluated on a concrete ended
session. -/
theorem save_already_ended_witness :
    (StudySession.mk (some "x") false (some 5000000) (some 20000000)
      (PauseManager.mk [] [Pause.mk "p1" (some "x") "r" 5000000 (some 8000000) 3])).finish 99
      = (none,
         StudySession.mk (some "x") false (some 5000000) (some 20000000)
           (PauseManager.mk [] [Pause.mk "p1" (some "x") "r" 5000000 (some 8000000) 3])) :=
  (save_already_ended (Db.mk [] [])
    (StudySession.mk (some "x") false (some 5000000) (some 20000000)
      (PauseManager.mk [] [Pause.mk "p1" (some "x") "r" 5000000 (some 8000000) 3]))
    "" "" "" 99 5000000 20000000 rfl rfl rfl).1

/-- C8 counterexample: with an unconfigured endpoint but an empty session
store, `sync_unsynced` reports "nothing to sync" and succeeds — not the
"skipped" outcome the claim promises for every unconfigured call. (No
deletions happen either way.) -/
theorem sync_unconfigured_empty_store_not_skipped :
    syncUnsynced (SyncConfig.mk none (some "http://x/session-pauses"))
      (fun _ => true) (fun _ => true) (Db.mk [] [])
      = (SyncOutcome.nothingToSync, true, Db.mk [] []) ∧
    SyncOutcome.nothingToSync ≠ SyncOutcome.skipped := by
  constructor
  · decide
  · decide

/-- C8 as amended: when either endpoint is unconfigured, `sync_unsynced`
never touches storage — the stored session and pause rows are exactly the
same after the call — and it reports the "skipped" outcome whenever at
least one session row is stored; with no stored rows it reports "nothing
to sync" and succeeds trivially. -/
theorem sync_unconfigured_no_deletions (cfg : SyncConfig)
    (ackSession : SessionPayload → Bool) (ackPause : PausePayload → Bool) (db : Db)
    (h : cfg.sessionLogEndpoint = none ∨ cfg.sessionPausesEndpoint = none) :
    (syncUnsynced cfg ackSession ackPause db).2.2 = db ∧
    (db.sessions ≠ [] →
      syncUnsynced cfg ackSession ackPause db = (SyncOutcome.skipped, false, db)) ∧
    (db.sessions = [] →
      syncUnsynced cfg ackSession ackPause db = (SyncOutcome.nothingToSync, true, db)) := by
  have hcfg : (cfg.sessionLogEndpoint.isSome && cfg.sessionPausesEndpoint.isSome) = false := by
    rcases h with h | h <;> simp [h]
  rw [syncUnsynced, fetchUnsyncedSessions]
  by_cases he : db.sessions = []
  · have hie : db.sessions.isEmpty = true := by simp [he]
    rw [hie]
    simp only [if_true]
    exact ⟨trivial, fun hc => absurd he hc, fun _ => trivial⟩
  · have hie : db.sessions.isEmpty = false := by
      simpa [List.isEmpty_iff] using he
    rw [hie]
    simp only [Bool.false_eq_true, if_false, hcfg]
    exact ⟨trivial, fun _ => trivial, fun hc => absurd hc he⟩

/-- C8 witness: a one-session store with the session-log endpoint unset is
left untouched and the call reports "skipped". -/
theorem sync_unconfigured_no_deletions_witness :
    syncUnsynced (SyncConfig.mk none (some "http://x/session-pauses"))
      (fun _ => true) (fun _ => true)
      (Db.mk [SessionRow.mk "s1" "" "" "10" "10" "0" "0" "" "" ""] [])
      = (SyncOutcome.skipped, false,
         Db.mk [SessionRow.mk "s1" "" "" "10" "10" "0" "0" "" "" ""] []) :=
  (sync_unconfigured_no_deletions (SyncConfig.mk none (some "http://x/session-pauses"))
    (fun _ => true) (fun _ => true)
    (Db.mk [SessionRow.mk "s1" "" "" "10" "10" "0" "0" "" "" ""] [])
    (Or.inl rfl)).2.1 (by decide)

theorem parseable_ne_empty (ts : String) (d : DateTime) (h : fromisoformat? ts = some d) :
    (ts == "") = false := by
  by_cases he : ts = ""
  · subst he
    rw [show fromisoformat? "" = none from rfl] at h
    cases h
  · simp [he]

/-- C9: every timestamp placed in a sync payload — `started_at` and
`ended_at` of both the session payload and the pause payload — goes
through `_format_ts_for_api`; for any stored timestamp string the parser
accepts, the payload carries the reformatted string, and that string
denotes exactly the input instant with its seconds and microseconds
zeroed. -/
theorem sync_payload_timestamps_truncated (s : SessionRow) (p : PauseRow)
    (d1 d2 d3 d4 : DateTime) :
    (fromisoformat? s.startedAt = some d1 →
      (sessionPayloadOfRow s).startedAt = some (formatTsForApi s.startedAt) ∧
      fromisoformat? (formatTsForApi s.startedAt) = some (truncToMinute d1)) ∧
    (fromisoformat? s.endedAt = some d2 →
      (sessionPayloadOfRow s).endedAt = some (formatTsForApi s.endedAt) ∧
      fromisoformat? (formatTsForApi s.endedAt) = some (truncToMinute d2)) ∧
    (fromisoformat? p.startedAt = some d3 →
      (pausePayloadOfRow p).startedAt = some (formatTsForApi p.startedAt) ∧
      fromisoformat? (formatTsForApi p.startedAt) = some (truncToMinute d3)) ∧
    (fromisoformat? p.endedAt = some d4 →
      (pausePayloadOfRow p).endedAt = some (formatTsForApi p.endedAt) ∧
      fromisoformat? (formatTsForApi p.endedAt) = some (truncToMinute d4)) := by
  refine ⟨fun h => ⟨?_, (formatTsForApi_truncates _ _ h).2⟩,
          fun h => ⟨?_, (formatTsForApi_truncates _ _ h).2⟩,
          fun h => ⟨?_, (formatTsForApi_truncates _ _ h).2⟩,
          fun h => ⟨?_, (formatTsForApi_truncates _ _ h).2⟩⟩
  · rw [sessionPayloadOfRow]
    simp only [parseable_ne_empty _ _ h, Bool.false_eq_true, if_false]
  · rw [sessionPayloadOfRow]
    simp only [parseable_ne_empty _ _ h, Bool.false_eq_true, if_false]
  · rw [pausePayloadOfRow]
    simp only [parseable_ne_empty _ _ h, Bool.false_eq_true, if_false]
  · rw [pausePayloadOfRow]
    simp only [parseable_ne_empty _ _ h, Bool.false_eq_true, if_false]

/-- C9 witness: concrete session and pause rows with second- and
microsecond-level timestamps; the payload values are the minute-truncated
reformattings. -/
theorem sync_payload_timestamps_truncated_witness :
    (sessionPayloadOfRow
      (SessionRow.mk "s1" "2024-03-05T10:20:30.123456" "2024-03-05T11:21:59" "3689" "3589"
        "1" "100" "" "" "")).startedAt
      = some (formatTsForApi "2024-03-05T10:20:30.123456") ∧
    fromisoformat? (formatTsForApi "2024-03-05T10:20:30.123456")
      = some (truncToMinute (DateTime.mk 2024 3 5 10 20 30 123456)) ∧
    (pausePayloadOfRow
      (PauseRow.mk "p1" "s1" "r" "2024-12-31T23:59:59" "2025-01-01T00:00:01"
        "2")).endedAt
      = some (formatTsForApi "2025-01-01T00:00:01") ∧
    fromisoformat? (formatTsForApi "2025-01-01T00:00:01")
      = some (truncToMinute (DateTime.mk 2025 1 1 0 0 1 0)) := by
  have h1 := (sync_payload_timestamps_truncated
    (SessionRow.mk "s1" "2024-03-05T10:20:30.123456" "2024-03-05T11:21:59" "3689" "3589"
      "1" "100" "" "" "")
    (PauseRow.mk "p1" "s1" "r" "2024-12-31T23:59:59" "2025-01-01T00:00:01" "2")
    (DateTime.mk 2024 3 5 10 20 30 123456) (DateTime.mk 2024 3 5 11 21 59 0)
    (DateTime.mk 2024 12 31 23 59 59 0) (DateTime.mk 2025 1 1 0 0 1 0)).1 (by decide)
  have h4 := (sync_payload_timestamps_truncated
    (SessionRow.mk "s1" "2024-03-05T10:20:30.123456" "2024-03-05T11:21:59" "3689" "3589"
      "1" "100" "" "" "")
    (PauseRow.mk "p1" "s1" "r" "2024-12-31T23:59:59" "2025-01-01T00:00:01" "2")
    (DateTime.mk 2024 3 5 10 20 30 123456) (DateTime.mk 2024 3 5 11 21 59 0)
    (DateTime.mk 2024 12 31 23 59 59 0) (DateTime.mk 2025 1 1 0 0 1 0)).2.2.2 (by decide)
  exact ⟨h1.1, h1.2, h4.1, h4.2⟩

theorem deletePauses_spec (db : Db) (ids : List String) :
    (deletePausesByIds db ids).1
      = Db.mk db.sessions (db.pauses.filter fun r => !(ids.contains r.id)) := by
  by_cases he : ids = []
  · subst he
    simp [deletePausesByIds]
  · have hie : ids.isEmpty = false := by simpa [List.isEmpty_iff] using he
    rw [deletePausesByIds, hie]
    simp only [Bool.false_eq_true, if_false, removePausesLoop_spec]

theorem syncStep_pauses (aP : PausePayload → Bool) (item : PreparedItem) (db : Db) :
    (syncStep aP item db).pauses
      = db.pauses.filter fun p => !((ackedIds aP item).contains p.id) := by
  have hdb1 : (if (ackedIds aP item).isEmpty then db
      else (deletePausesByIds db (ackedIds aP item)).1).pauses
      = db.pauses.filter fun p => !((ackedIds aP item).contains p.id) := by
    by_cases he : ackedIds aP item = []
    · rw [he]
      simp
    · have hie : (ackedIds aP item).isEmpty = false := by simpa [List.isEmpty_iff] using he
      rw [hie]
      simp only [Bool.false_eq_true, if_false, deletePauses_spec]
  rw [syncStep]
  by_cases hc : ((ackedIds aP item).length == item.pauses.length) = true
  · rw [if_pos hc, deleteSessionBySessionId_eq_filter]
    exact hdb1
  · rw [if_neg hc]
    exact hdb1

theorem syncStep_sessions (aP : PausePayload → Bool) (item : PreparedItem) (db : Db) :
    (syncStep aP item db).sessions
      = db.sessions.filter fun r =>
          !((r.sessionId == item.session.sessionId) &&
            ((ackedIds aP item).length == item.pauses.length)) := by
  have hdb1 : (if (ackedIds aP item).isEmpty then db
      else (deletePausesByIds db (ackedIds aP item)).1).sessions = db.sessions := by
    by_cases he : ackedIds aP item = []
    · rw [he]
      simp
    · have hie : (ackedIds aP item).isEmpty = false := by simpa [List.isEmpty_iff] using he
      rw [hie]
      simp only [Bool.false_eq_true, if_false, deletePauses_spec]
  rw [syncStep]
  by_cases hc : ((ackedIds aP item).length == item.pauses.length) = true
  · rw [if_pos hc, deleteSessionBySessionId_eq_filter]
    simp only [hdb1, hc, Bool.and_true]
  · rw [if_neg hc]
    rw [hdb1]
    have hcf : ((ackedIds aP item).length == item.pauses.length) = false :=
      Bool.eq_false_iff.mpr hc
    simp [hcf]

theorem syncLoop_pauses (aS : SessionPayload → Bool) (aP : PausePayload → Bool)
    (items : List PreparedItem) : ∀ (db : Db) (ok : Bool),
    (syncLoop aS aP items db ok).1.pauses
      = db.pauses.filter fun p => !(items.any fun it => (ackedIds aP it).contains p.id) := by
  induction items with
  | nil =>
    intro db ok
    simp [syncLoop]
  | cons it rest ih =>
    intro db ok
    rw [syncLoop, ih, syncStep_pauses, List.filter_filter]
    apply List.filter_congr
    intro p _
    simp only [List.any_cons, Bool.not_or, Bool.and_comm]

theorem syncLoop_sessions (aS : SessionPayload → Bool) (aP : PausePayload → Bool)
    (items : List PreparedItem) : ∀ (db : Db) (ok : Bool),
    (syncLoop aS aP items db ok).1.sessions
      = db.sessions.filter fun r =>
          !(items.any fun it =>
             (r.sessionId == it.session.sessionId) &&
             ((ackedIds aP it).length == it.pauses.length)) := by
  induction items with
  | nil =>
    intro db ok
    simp [syncLoop]
  | cons it rest ih =>
    intro db ok
    rw [syncLoop, ih, syncStep_sessions, List.filter_filter]
    apply List.filter_congr
    intro r _
    simp only [List.any_cons, Bool.not_or, Bool.and_comm]

theorem pausePayload_id (q : PauseRow) : (pausePayloadOfRow q).id = q.id := rfl

theorem sessionPayload_sessionId (s : SessionRow) :
    (sessionPayloadOfRow s).sessionId = s.sessionId := rfl

/-- For a stored pause row (under unique pause ids), some prepared item
acknowledges its id exactly when some stored session row carries its
session id and the pauses endpoint acknowledged its payload. -/
theorem prepared_any_acked (aP : PausePayload → Bool) (db : Db) (p : PauseRow)
    (hndP : (db.pauses.map fun r => r.id).Nodup) (hp : p ∈ db.pauses) :
    ((prepareItems db).any fun it => (ackedIds aP it).contains p.id)
      = ((db.sessions.any fun srow => srow.sessionId == p.sessionId) &&
         aP (pausePayloadOfRow p)) := by
  apply Bool.coe_iff_coe.mp
  constructor
  · intro h
    rw [List.any_eq_true] at h
    obtain ⟨it, hit, hcont⟩ := h
    rw [prepareItems, List.mem_map] at hit
    obtain ⟨srow, hsrow, hform⟩ := hit
    rw [← hform, ackedIds] at hcont
    have hmem := List.elem_iff.mp hcont
    rw [List.mem_map] at hmem
    obtain ⟨pp, hpp, hid⟩ := hmem
    rw [List.mem_filter] at hpp
    obtain ⟨hpp1, hap⟩ := hpp
    rw [List.mem_map] at hpp1
    obtain ⟨q, hq, hqe⟩ := hpp1
    rw [fetchUnsyncedPausesForSession, List.mem_filter] at hq
    obtain ⟨hqmem, hqsid⟩ := hq
    have hqid : q.id = p.id := by
      rw [← hqe] at hid
      exact hid
    have hqp : q = p := List.inj_on_of_nodup_map hndP hqmem hp hqid
    subst hqp
    rw [Bool.and_eq_true]
    constructor
    · rw [List.any_eq_true]
      refine ⟨srow, hsrow, ?_⟩
      rw [beq_iff_eq] at hqsid ⊢
      exact hqsid.symm
    · rw [← hqe] at hap
      exact hap
  · intro h
    rw [Bool.and_eq_true] at h
    obtain ⟨hany, hap⟩ := h
    rw [List.any_eq_true] at hany
    obtain ⟨srow, hsrow, hsid⟩ := hany
    rw [List.any_eq_true]
    refine ⟨PreparedItem.mk (sessionPayloadOfRow srow)
        ((fetchUnsyncedPausesForSession db srow.sessionId).map pausePayloadOfRow),
      ?_, ?_⟩
    · rw [prepareItems, List.mem_map]
      exact ⟨srow, hsrow, rfl⟩
    · apply List.elem_iff.mpr
      rw [ackedIds, List.mem_map]
      refine ⟨pausePayloadOfRow p, ?_, rfl⟩
      rw [List.mem_filter]
      refine ⟨?_, hap⟩
      rw [List.mem_map]
      refine ⟨p, ?_, rfl⟩
      rw [fetchUnsyncedPausesForSession, List.mem_filter]
      refine ⟨hp, ?_⟩
      rw [beq_iff_eq] at hsid ⊢
      exact hsid.symm

/-- For a stored session row (under unique session ids), some prepared
item matches its id with every pause acknowledged exactly when every
stored pause row of that session id was acknowledged. -/
theorem prepared_any_fully_acked (aP : PausePayload → Bool) (db : Db) (srow : SessionRow)
    (hndS : (db.sessions.map fun r => r.sessionId).Nodup) (hs : srow ∈ db.sessions) :
    ((prepareItems db).any fun it =>
        (srow.sessionId == it.session.sessionId) &&
        ((ackedIds aP it).length == it.pauses.length))
      = ((db.pauses.filter fun q => q.sessionId == srow.sessionId).all
          fun q => aP (pausePayloadOfRow q)) := by
  have hlen : ∀ s2 : SessionRow,
      ((ackedIds aP (PreparedItem.mk (sessionPayloadOfRow s2)
          ((fetchUnsyncedPausesForSession db s2.sessionId).map pausePayloadOfRow))).length
        == ((fetchUnsyncedPausesForSession db s2.sessionId).map pausePayloadOfRow).length)
      = (db.pauses.filter fun q => q.sessionId == s2.sessionId).all
          (fun q => aP (pausePayloadOfRow q)) := by
    intro s2
    apply Bool.coe_iff_coe.mp
    rw [beq_iff_eq, ackedIds, List.length_map, List.all_eq_true]
    rw [← List.countP_eq_length_filter, List.length_map, fetchUnsyncedPausesForSession,
      List.countP_map]
    rw [List.countP_eq_length]
    constructor
    · intro h q hq
      exact h q hq
    · intro h q hq
      exact h q hq
  apply Bool.coe_iff_coe.mp
  constructor
  · intro h
    rw [List.any_eq_true] at h
    obtain ⟨it, hit, hcond⟩ := h
    rw [prepareItems, List.mem_map] at hit
    obtain ⟨s2, hs2, hform⟩ := hit
    rw [← hform] at hcond
    rw [Bool.and_eq_true] at hcond
    obtain ⟨hid, hfull⟩ := hcond
    rw [sessionPayload_sessionId, beq_iff_eq] at hid
    have hse : s2 = srow := List.inj_on_of_nodup_map hndS hs2 hs hid.symm
    subst hse
    rw [← hlen s2]
    exact hfull
  · intro h
    rw [List.any_eq_true]
    refine ⟨PreparedItem.mk (sessionPayloadOfRow srow)
        ((fetchUnsyncedPausesForSession db srow.sessionId).map pausePayloadOfRow),
      ?_, ?_⟩
    · rw [prepareItems, List.mem_map]
      exact ⟨srow, hs, rfl⟩
    · rw [Bool.and_eq_true]
      refine ⟨by simp [sessionPayload_sessionId], ?_⟩
      rw [hlen srow]
      exact h

/-- C1: with both endpoints configured and well-formed storage (unique
session ids and unique pause ids), `sync_unsynced` deletes exactly the
pause rows whose POST was acknowledged (among pauses belonging to a
stored session, the ones that get posted), and deletes a session row if
and only if every one of its pauses was acknowledged — the
acknowledgment oracle for the session-log endpoint appears nowhere in the
characterization, so session deletion is independent of the session-log
POST result, and a session with zero pauses is always deleted. -/
theorem sync_deletes_exactly_acked (cfg : SyncConfig) (aS : SessionPayload → Bool)
    (aP : PausePayload → Bool) (db : Db)
    (hc1 : cfg.sessionLogEndpoint.isSome = true)
    (hc2 : cfg.sessionPausesEndpoint.isSome = true)
    (hndS : (db.sessions.map fun r => r.sessionId).Nodup)
    (hndP : (db.pauses.map fun r => r.id).Nodup) :
    (syncUnsynced cfg aS aP db).2.2.pauses
      = db.pauses.filter (fun p =>
          !((db.sessions.any fun srow => srow.sessionId == p.sessionId) &&
            aP (pausePayloadOfRow p))) ∧
    (syncUnsynced cfg aS aP db).2.2.sessions
      = db.sessions.filter (fun srow =>
          !((db.pauses.filter fun q => q.sessionId == srow.sessionId).all
             fun q => aP (pausePayloadOfRow q))) ∧
    (∀ srow ∈ db.sessions,
      (db.pauses.filter fun q => q.sessionId == srow.sessionId) = [] →
      srow ∉ (syncUnsynced cfg aS aP db).2.2.sessions) := by
  have hmain :
      (syncUnsynced cfg aS aP db).2.2.pauses
        = db.pauses.filter (fun p =>
            !((db.sessions.any fun srow => srow.sessionId == p.sessionId) &&
              aP (pausePayloadOfRow p))) ∧
      (syncUnsynced cfg aS aP db).2.2.sessions
        = db.sessions.filter (fun srow =>
            !((db.pauses.filter fun q => q.sessionId == srow.sessionId).all
               fun q => aP (pausePayloadOfRow q))) := by
    by_cases he : db.sessions = []
    · rw [syncUnsynced, fetchUnsyncedSessions]
      have hie : db.sessions.isEmpty = true := by simp [he]
      rw [hie]
      simp only [if_true]
      constructor
      · apply Eq.symm
        apply List.filter_eq_self.mpr
        intro p _
        rw [he]
        simp
      · rw [he]
        simp
    · have hie : db.sessions.isEmpty = false := by simpa [List.isEmpty_iff] using he
      rw [syncUnsynced, fetchUnsyncedSessions, hie]
      simp only [Bool.false_eq_true, if_false, hc1, hc2, Bool.and_self, if_true]
      constructor
      · rw [syncLoop_pauses]
        apply List.filter_congr
        intro p hp
        exact congrArg Bool.not (prepared_any_acked aP db p hndP hp)
      · rw [syncLoop_sessions]
        apply List.filter_congr
        intro srow hs
        exact congrArg Bool.not (prepared_any_fully_acked aP db srow hndS hs)
  refine ⟨hmain.1, hmain.2, ?_⟩
  intro srow hs hnone
  rw [hmain.2]
  intro hmem
  rw [List.mem_filter] at hmem
  obtain ⟨_, hpred⟩ := hmem
  rw [hnone] at hpred
  simp at hpred

/-- C1 witness: a store with one session and two pauses, a failing
session-log endpoint and an acknowledging pauses endpoint — both pause
rows and the session row are deleted, and the zero-pause conjunct applies
to a second session with no pauses. -/
theorem sync_deletes_exactly_acked_witness :
    (syncUnsynced (SyncConfig.mk (some "http://x/session-log") (some "http://x/session-pauses"))
      (fun _ => false) (fun _ => true)
      (Db.mk [SessionRow.mk "s1" "" "" "3600" "3500" "2" "100" "" "" ""]
             [PauseRow.mk "p1" "s1" "r" "" "" "60",
              PauseRow.mk "p2" "s1" "" "" "" "40"])).2.2.pauses = [] ∧
    (syncUnsynced (SyncConfig.mk (some "http://x/session-log") (some "http://x/session-pauses"))
      (fun _ => false) (fun _ => true)
      (Db.mk [SessionRow.mk "s1" "" "" "3600" "3500" "2" "100" "" "" ""]
             [PauseRow.mk "p1" "s1" "r" "" "" "60",
              PauseRow.mk "p2" "s1" "" "" "" "40"])).2.2.sessions = [] := by
  have h := sync_deletes_exactly_acked
    (SyncConfig.mk (some "http://x/session-log") (some "http://x/session-pauses"))
    (fun _ => false) (fun _ => true)
    (Db.mk [SessionRow.mk "s1" "" "" "3600" "3500" "2" "100" "" "" ""]
           [PauseRow.mk "p1" "s1" "r" "" "" "60",
            PauseRow.mk "p2" "s1" "" "" "" "40"])
    rfl rfl (by decide) (by decide)
  rw [h.1, h.2.1]
  constructor
  · decide
  · decide
